import Mathlib

/-!
Shallow embedding of the Hackflight flight-control orchestration core
(`src/hackflight.hpp`, class `Hackflight`) and of `IMU::computeAccelZ`
(`imu.hpp`).

Modelling conventions:
* External collaborators (board, receiver, stabilizer, mixer, altitude
  controller, MSP serial codec) are outside the orchestrator per the spec;
  their per-tick responses are supplied by an `Env` record, and the calls the
  orchestrator makes into them are recorded as an `Event` trace.
* `float` quantities that the orchestrator merely passes through (angles,
  demands, PID trims) are modelled as `ℚ`; none of the verified properties
  depends on floating-point rounding.
* `uint32_t` timestamps are modelled as `Nat` (monotonic clock, no wraparound
  in the properties considered).
-/

namespace HF

/-- Orientation sample `(roll, pitch, yaw)`, the C array `eulerAngles[3]`
indexed by `AXIS_ROLL = 0`, `AXIS_PITCH = 1`, `AXIS_YAW = 2`. -/
structure Angles where
  roll : ℚ
  pitch : ℚ
  yaw : ℚ
deriving DecidableEq

/-- Value of the C constant `M_PI` used in the yaw normalization step of
`Hackflight::inner`; the exact numeric value is irrelevant to every property
proved below. -/
def M_PI : ℚ := 3.141592653589793

/-- Modelled from the spec: the repository's `timedtask.hpp` is not under
`src/` (only its callers are), so `TimedTask` follows the spec's PeriodicTask
contract (section 4.1): a `period` set at initialization and a `lastFired`
baseline starting at the time-zero epoch. -/
structure TimedTask where
  period : Nat
  lastFired : Nat
deriving DecidableEq

namespace TimedTask

/-- Modelled from the spec: `initialize(period)` sets the interval and starts
the firing baseline at the time-zero epoch. -/
def init (p : Nat) : TimedTask := { period := p, lastFired := 0 }

/-- Modelled from the spec: `peekElapsed(now)` — pure elapsed-time test
`now - lastFired >= period`, never mutating (`TimedTask::ready` call site). -/
def ready (t : TimedTask) (now : Nat) : Bool :=
  t.lastFired + t.period ≤ now

/-- Modelled from the spec: `consumeIfElapsed(now)` — returns true and
advances `lastFired := now` iff `now - lastFired >= period`, otherwise
returns false with no mutation (`TimedTask::checkAndUpdate` call site). -/
def checkAndUpdate (t : TimedTask) (now : Nat) : Bool × TimedTask :=
  if t.lastFired + t.period ≤ now then (true, { t with lastFired := now })
  else (false, t)

/-- Runs a sequence of consuming checks, collecting the results. -/
def runCalls (t : TimedTask) (times : List Nat) : List Bool × TimedTask :=
  match times with
  | [] => ([], t)
  | n :: rest =>
      let (b, t') := t.checkAndUpdate n
      let (bs, t'') := runCalls t' rest
      (b :: bs, t'')

end TimedTask

/-- A call the orchestrator makes into an external collaborator during one
tick, in program order. -/
inductive Event where
  /-- `mixer.cutMotors()` -/
  | cutMotors
  /-- `mixer.runDisarmed()` -/
  | runDisarmed
  /-- `mixer.runArmed(throttle, pidRoll, pidPitch, pidYaw)` -/
  | runArmed (throttle rollTrim pitchTrim yawTrim : ℚ)
  /-- `board->ledSet(on)` -/
  | ledSet (b : Bool)
  /-- `receiver->update()` -/
  | receiverUpdate
  /-- `stab.resetIntegral()` -/
  | resetIntegral
  /-- `alti.handleAuxSwitch(auxState, throttleDemand)` -/
  | handleAuxSwitch (aux : Nat) (throttle : ℚ)
  /-- `alti.computePid(armed)` -/
  | computePid (armed : Bool)
  /-- `receiver->computeExpo(yawDelta)` -/
  | computeExpo (yawDelta : ℚ)
  /-- `board->getImu(eulerAngles, gyroRadiansPerSecond)` -/
  | getImu
  /-- `alti.fuseWithImu(eulerAngles, armed)` -/
  | fuseWithImu (armed : Bool)
  /-- `alti.modifyDemand(demands[DEMAND_THROTTLE])` -/
  | modifyDemand
  /-- `stab.update(demands, eulerAngles, gyro)` -/
  | stabUpdate
  /-- `msp.update(eulerAngles, armed)` -/
  | mspUpdate (armed : Bool)
deriving DecidableEq

/-- Per-tick responses of the external collaborators, read at the call sites
of one `Hackflight::update` pass. -/
structure Env where
  /-- `board->getMicros()` at the top of `update`. -/
  time : Nat
  /-- `receiver->lostSignal()` -/
  lostSignal : Bool
  /-- `receiver->changed()` -/
  changed : Bool
  /-- `receiver->arming()` -/
  arming : Bool
  /-- `receiver->disarming()` -/
  disarming : Bool
  /-- `receiver->throttleIsDown()` -/
  throttleIsDown : Bool
  /-- `receiver->getAuxState()` (a `uint8_t`) -/
  getAuxState : Nat
  /-- `receiver->demands[Receiver::DEMAND_THROTTLE]` as read in `outer`. -/
  throttleDemand : ℚ
  /-- Orientation written by `board->getImu` in `inner` (before the yaw
  range normalization performed by `inner` itself). -/
  imuAngles : Angles
  /-- `receiver->demands[Receiver::DEMAND_THROTTLE]` at the mixer dispatch
  point of `inner`, after `receiver->computeExpo` and `alti.modifyDemand`
  (both external) have shaped it. -/
  throttleDemandInner : ℚ
  /-- `stab.pidRoll` after `stab.update` (external stabilizer output). -/
  pidRoll : ℚ
  /-- `stab.pidPitch` after `stab.update`. -/
  pidPitch : ℚ
  /-- `stab.pidYaw` after `stab.update`. -/
  pidYaw : ℚ
  /-- `stab.maxArmingAngle` (external stabilizer constant). -/
  maxArmingAngle : ℚ
deriving DecidableEq

/-- The orchestrator's member state: the flags, aux/yaw session values,
cached orientation and the four timing tasks of class `Hackflight`. -/
structure HState where
  armed : Bool
  failsafe : Bool
  safeToArm : Bool
  auxState : Nat
  yawInitial : ℚ
  eulerAngles : Angles
  innerTask : TimedTask
  outerTask : TimedTask
  angleCheckTask : TimedTask
  altitudeTask : TimedTask
deriving DecidableEq

namespace Hackflight

/-- Loop-timing constant `imuLoopMicro` (µs). -/
def imuLoopMicro : Nat := 3500
/-- Loop-timing constant `rcLoopMilli` (ms). -/
def rcLoopMilli : Nat := 10
/-- Loop-timing constant `altHoldLoopMilli` (ms). -/
def altHoldLoopMilli : Nat := 25
/-- Loop-timing constant `angleCheckMilli` (ms). -/
def angleCheckMilli : Nat := 500

/-- `Hackflight::init`: effect on the orchestrator's member state. Hardware
bring-up, LED flashing, startup delay and collaborator initialization are
external calls; the member-state assignments are the task initializations and
`armed = false`, `safeToArm = false`, `failsafe = false`. Fields not assigned
by the source (`auxState`, `yawInitial`, `eulerAngles`) keep their prior
values. -/
def init (s : HState) : HState :=
  { s with
    innerTask := TimedTask.init imuLoopMicro
    outerTask := TimedTask.init (rcLoopMilli * 1000)
    angleCheckTask := TimedTask.init (angleCheckMilli * 1000)
    altitudeTask := TimedTask.init (altHoldLoopMilli * 1000)
    armed := false
    safeToArm := false
    failsafe := false }

/-- The `receiver->changed()` block of `Hackflight::outer` (arming/disarming
actions); it makes no collaborator calls, so it returns only the state. -/
def outerArmingCheck (env : Env) (s : HState) : HState :=
  if env.changed then
    if s.armed then
      if env.disarming then
        if s.armed then { s with armed := false } else s
      else s
    else
      if env.arming then
        if !s.failsafe && s.safeToArm then
          let s' := { s with auxState := env.getAuxState }
          if s'.auxState = 0 then
            if !s'.armed then
              { s' with yawInitial := s'.eulerAngles.yaw, armed := true }
            else s'
          else s'
        else s
      else s
  else s

/-- The aux-switch edge detection at the end of `Hackflight::outer`. -/
def outerAuxEdge (env : Env) (s : HState) : HState × List Event :=
  if env.getAuxState ≠ s.auxState then
    ({ s with auxState := env.getAuxState },
     [Event.handleAuxSwitch env.getAuxState env.throttleDemand])
  else (s, [])

/-- `Hackflight::outer` (the slow-task / pilot-command handler): receiver
refresh, integrator reset on low throttle, arming/disarming actions, aux
edge detection. -/
def outer (env : Env) (s : HState) : HState × List Event :=
  let evs0 := [Event.receiverUpdate]
  let evs1 := if env.throttleIsDown then [Event.resetIntegral] else []
  let s1 := outerArmingCheck env s
  let r := outerAuxEdge env s1
  (r.1, evs0 ++ evs1 ++ r.2)

/-- The mixer dispatch selected at the end of `Hackflight::inner`. -/
def innerMixerDispatch (env : Env) (s : HState) : Event :=
  if !s.armed then Event.runDisarmed
  else if !s.failsafe && !env.throttleIsDown then
    Event.runArmed env.throttleDemandInner env.pidRoll env.pidPitch env.pidYaw
  else Event.cutMotors

/-- `Hackflight::inner` (the fast-task handler / demand pipeline): expo
shaping, IMU read with yaw range normalization into the cached orientation,
LED, altitude fusion, demand modification, stabilization, exactly one mixer
dispatch, serial update. -/
def inner (env : Env) (s : HState) : HState × List Event :=
  let e := env.imuAngles
  let yaw := if e.yaw < 0 then e.yaw + 2 * M_PI else e.yaw
  let s1 := { s with eulerAngles := { e with yaw := yaw } }
  (s1,
   [Event.computeExpo (s.eulerAngles.yaw - s.yawInitial),
    Event.getImu,
    Event.ledSet s1.armed,
    Event.fuseWithImu s1.armed,
    Event.modifyDemand,
    Event.stabUpdate,
    innerMixerDispatch env s1,
    Event.mspUpdate s1.armed])

/-- `Hackflight::checkAngle`: recompute `safeToArm` from the cached
orientation and the stabilizer's `maxArmingAngle`. -/
def checkAngle (env : Env) (s : HState) : HState :=
  { s with
    safeToArm :=
      decide (|s.eulerAngles.roll| < env.maxArmingAngle) &&
      decide (|s.eulerAngles.pitch| < env.maxArmingAngle) }

/-- The four task-gated blocks of `Hackflight::update`, in source order:
slow (outer) task, else altitude-PID task, then fast (inner) task, then the
angle-safety check. -/
def updateTasks (env : Env) (s : HState) : HState × List Event :=
  let t := env.time
  let co := s.outerTask.checkAndUpdate t
  let s1 := { s with outerTask := co.2 }
  let r1 : HState × List Event :=
    if co.1 then outer env s1
    else
      let ca := s1.altitudeTask.checkAndUpdate t
      let s1' := { s1 with altitudeTask := ca.2 }
      (s1', if ca.1 then [Event.computePid s1'.armed] else [])
  let ci := r1.1.innerTask.checkAndUpdate t
  let s3 := { r1.1 with innerTask := ci.2 }
  let r2 : HState × List Event := if ci.1 then inner env s3 else (s3, [])
  let s5 := if r2.1.angleCheckTask.ready t then checkAngle env r2.1 else r2.1
  (s5, r1.2 ++ r2.2)

/-- The unconditional failsafe check at the end of `Hackflight::update`. -/
def updateFailsafe (env : Env) (s : HState) : HState × List Event :=
  if s.armed && env.lostSignal then
    ({ s with armed := false, failsafe := true },
     [Event.cutMotors, Event.ledSet false])
  else (s, [])

/-- `Hackflight::update`: one dispatcher tick — the task-gated blocks
followed by the unconditional failsafe check. -/
def update (env : Env) (s : HState) : HState × List Event :=
  let a := updateTasks env s
  let b := updateFailsafe env a.1
  (b.1, a.2 ++ b.2)

/-- Iterates `update` over a sequence of ticks (the external run loop),
keeping only the orchestrator state. -/
def run (envs : List Env) (s : HState) : HState :=
  envs.foldl (fun s' e => (update e s').1) s

end Hackflight

/-- Accumulator state of class `IMU` (`imu.hpp`): `accelSum[3]`,
`accelSumCount`, `accelTimeSum`. -/
structure IMUState where
  accelSum0 : Int
  accelSum1 : Int
  accelSum2 : Int
  accelSumCount : Int
  accelTimeSum : Nat
deriving DecidableEq

/-- `IMU::computeAccelZ`: the acceleration computation is commented out in
the source, so `accelZ` is the literal 0; the accumulators are all reset. -/
def IMU.computeAccelZ (s : IMUState) : ℚ × IMUState :=
  let accelZ : ℚ := 0
  (accelZ,
   { s with
     accelSum0 := 0
     accelSum1 := 0
     accelSum2 := 0
     accelSumCount := 0
     accelTimeSum := 0 })

/-! ### Concrete values used by witnesses and counterexamples -/

/-- A concrete orientation sample. -/
def angles0 : Angles := ⟨0, 0, 7⟩

/-- A concrete per-tick environment: receiver reports a change with arm
intent, aux switch at zero, good signal. -/
def envBase : Env :=
  { time := 0, lostSignal := false, changed := true, arming := true,
    disarming := false, throttleIsDown := false, getAuxState := 0,
    throttleDemand := 1/2, imuAngles := angles0, throttleDemandInner := 1/2,
    pidRoll := 1, pidPitch := 2, pidYaw := 3, maxArmingAngle := 1 }

/-- A concrete disarmed state that satisfies all arming guards. -/
def stateBase : HState :=
  { armed := false, failsafe := false, safeToArm := true, auxState := 0,
    yawInitial := 0, eulerAngles := angles0,
    innerTask := ⟨3500, 0⟩, outerTask := ⟨10000, 0⟩,
    angleCheckTask := ⟨500000, 0⟩, altitudeTask := ⟨25000, 0⟩ }

/-! ### Supporting lemmas -/

/-- The consuming check performs the same elapsed-time test as the pure
peek, and mutates `lastFired` exactly when it fires. -/
theorem TimedTask.checkAndUpdate_eq (t : TimedTask) (now : Nat) :
    t.checkAndUpdate now =
      (t.ready now, if t.ready now then { t with lastFired := now } else t) := by
  unfold TimedTask.checkAndUpdate TimedTask.ready
  by_cases h : t.lastFired + t.period ≤ now <;> simp [h]

/-! ### Claim theorems -/

/-- Claim C8 (counterexample): under the spec's own consumeIfElapsed
contract (fire iff `now - lastFired >= period`, baseline at the time-zero
epoch), a period of 10 with consuming checks at 0, 5, 10, 15 yields
`false, false, true, false` — the check at `now = 0` has `now - lastFired =
0 < 10` — not `true, false, true, false` as the claim's scenario states. -/
theorem timedTask_scenario_cex :
    (TimedTask.runCalls (TimedTask.init 10) [0, 5, 10, 15]).1 ≠
      [true, false, true, false] := by decide

/-- Claim C8 (amended): after `init p` the baseline `lastFired` is the
time-zero epoch and the period is `p`; `checkAndUpdate now` returns true and
sets `lastFired = now` iff `now - lastFired ≥ period`, and otherwise returns
false and mutates nothing; with period 10 and consuming checks at
0, 5, 10, 15 the results are `false, false, true, false` (firing at 10
only). -/
theorem timedTask_contract (p : Nat) (t : TimedTask) (now : Nat) :
    (TimedTask.init p).lastFired = 0 ∧ (TimedTask.init p).period = p ∧
    ((t.checkAndUpdate now).1 = true ↔ t.lastFired + t.period ≤ now) ∧
    ((t.checkAndUpdate now).1 = true →
      (t.checkAndUpdate now).2 = { t with lastFired := now }) ∧
    ((t.checkAndUpdate now).1 = false → (t.checkAndUpdate now).2 = t) ∧
    (TimedTask.runCalls (TimedTask.init 10) [0, 5, 10, 15]).1 =
      [false, false, true, false] := by
  refine ⟨rfl, rfl, ?_, ?_, ?_, by decide⟩ <;>
    rw [TimedTask.checkAndUpdate_eq] <;>
    by_cases h : t.lastFired + t.period ≤ now <;>
    simp [TimedTask.ready, h]

/-- Claim C10: `IMU::computeAccelZ` returns exactly 0 and zeroes the three
`accelSum` entries, `accelSumCount` and `accelTimeSum`, regardless of the
prior accumulator contents. -/
theorem computeAccelZ_returns_zero_and_resets (s : IMUState) :
    IMU.computeAccelZ s =
      (0, { accelSum0 := 0, accelSum1 := 0, accelSum2 := 0,
            accelSumCount := 0, accelTimeSum := 0 }) := rfl

/-- Claim C6 (counterexample): `Hackflight::init` assigns only the four
timing tasks and the three flags; on a prior state with `auxState = 3` and
`yawInitial = 5`, both values survive `init`, so not every orchestrator
field is zero after `init` returns. -/
theorem init_not_all_zero_cex :
    (Hackflight.init
        { stateBase with auxState := 3, yawInitial := 5 }).auxState ≠ 0 ∧
    (Hackflight.init
        { stateBase with auxState := 3, yawInitial := 5 }).yawInitial ≠ 0 := by
  decide

/-- Claim C6 (amended): after `init()` returns, `armed = false`,
`failsafe = false` and `safeToArm = false`; `auxState`, `yawInitial` and the
cached orientation are not assigned by `init` and keep their prior values
(zero only when the object was zero-initialized at startup). -/
theorem init_fields (s : HState) :
    (Hackflight.init s).armed = false ∧
    (Hackflight.init s).failsafe = false ∧
    (Hackflight.init s).safeToArm = false ∧
    (Hackflight.init s).auxState = s.auxState ∧
    (Hackflight.init s).yawInitial = s.yawInitial ∧
    (Hackflight.init s).eulerAngles = s.eulerAngles :=
  ⟨rfl, rfl, rfl, rfl, rfl, rfl⟩

/-- Claim C5 (counterexample): starting disarmed with `auxState = 0`, all
guards true except the aux switch (position 1), the arm request is refused
(`armed` stays false) yet the guard evaluation has already assigned
`auxState = receiver->getAuxState()`, mutating it from 0 to 1. -/
theorem armingCheck_mutates_cex :
    stateBase.auxState = 0 ∧
    (Hackflight.outerArmingCheck { envBase with getAuxState := 1 }
        stateBase).armed = false ∧
    (Hackflight.outerArmingCheck { envBase with getAuxState := 1 }
        stateBase).auxState = 1 := by
  decide

/-- Claim C5 (amended): an arm request refused because the receiver reported
no change, no arm intent is present, failsafe is set, or safeToArm is false
leaves the orchestrator state completely unchanged; a request refused because
the aux switch is not at zero leaves every field unchanged except `auxState`,
which the guard evaluation has already set to the current aux position. -/
theorem armingCheck_refusal (env : Env) (s : HState) (h : s.armed = false) :
    ((env.changed = false ∨ env.arming = false ∨ s.failsafe = true ∨
        s.safeToArm = false) →
      Hackflight.outerArmingCheck env s = s) ∧
    (env.changed = true → env.arming = true → s.failsafe = false →
      s.safeToArm = true → env.getAuxState ≠ 0 →
      Hackflight.outerArmingCheck env s =
        { s with auxState := env.getAuxState }) := by
  unfold Hackflight.outerArmingCheck
  cases hc : env.changed <;> cases ha : env.arming <;>
    cases hf : s.failsafe <;> cases hs : s.safeToArm <;>
    by_cases hx : env.getAuxState = 0 <;> simp_all

/-- Witness for `armingCheck_refusal` at a concrete disarmed state and
arm-intent environment with the aux switch at position 1. -/
theorem armingCheck_refusal_witness :
    ((({ envBase with getAuxState := 1 } : Env).changed = false ∨
        ({ envBase with getAuxState := 1 } : Env).arming = false ∨
        stateBase.failsafe = true ∨ stateBase.safeToArm = false) →
      Hackflight.outerArmingCheck { envBase with getAuxState := 1 } stateBase =
        stateBase) ∧
    (({ envBase with getAuxState := 1 } : Env).changed = true →
      ({ envBase with getAuxState := 1 } : Env).arming = true →
      stateBase.failsafe = false → stateBase.safeToArm = true →
      ({ envBase with getAuxState := 1 } : Env).getAuxState ≠ 0 →
      Hackflight.outerArmingCheck { envBase with getAuxState := 1 } stateBase =
        { stateBase with
          auxState := ({ envBase with getAuxState := 1 } : Env).getAuxState }) :=
  armingCheck_refusal { envBase with getAuxState := 1 } stateBase rfl

/-- The state returned by the aux-edge block, as a single conditional. -/
theorem outerAuxEdge_fst (e : Env) (s : HState) :
    (Hackflight.outerAuxEdge e s).1 =
      if e.getAuxState ≠ s.auxState then { s with auxState := e.getAuxState }
      else s := by
  unfold Hackflight.outerAuxEdge
  split <;> simp_all

/-- The aux-edge block never touches `armed`. -/
theorem outerAuxEdge_armed (e : Env) (s : HState) :
    (Hackflight.outerAuxEdge e s).1.armed = s.armed := by
  rw [outerAuxEdge_fst]; split <;> rfl

/-- The aux-edge block never touches `yawInitial`. -/
theorem outerAuxEdge_yawInitial (e : Env) (s : HState) :
    (Hackflight.outerAuxEdge e s).1.yawInitial = s.yawInitial := by
  rw [outerAuxEdge_fst]; split <;> rfl

/-- The slow-task handler's final `armed` is decided by the arming-check
block (the aux-edge block preserves it). -/
theorem outer_fst_armed (e : Env) (s : HState) :
    (Hackflight.outer e s).1.armed = (Hackflight.outerArmingCheck e s).armed := by
  show (Hackflight.outerAuxEdge e (Hackflight.outerArmingCheck e s)).1.armed = _
  exact outerAuxEdge_armed e _

/-- The slow-task handler's final `yawInitial` is decided by the
arming-check block. -/
theorem outer_fst_yawInitial (e : Env) (s : HState) :
    (Hackflight.outer e s).1.yawInitial =
      (Hackflight.outerArmingCheck e s).yawInitial := by
  show (Hackflight.outerAuxEdge e (Hackflight.outerArmingCheck e s)).1.yawInitial = _
  exact outerAuxEdge_yawInitial e _

/-- Starting disarmed, the arming-check block arms iff all four guards hold
with the aux switch at zero, and then captures `yawInitial` from the cached
yaw. -/
theorem outerArmingCheck_armed_iff (env : Env) (s : HState)
    (h : s.armed = false) :
    ((Hackflight.outerArmingCheck env s).armed = true ↔
      env.changed = true ∧ env.arming = true ∧ s.failsafe = false ∧
      s.safeToArm = true ∧ env.getAuxState = 0) ∧
    ((Hackflight.outerArmingCheck env s).armed = true →
      (Hackflight.outerArmingCheck env s).yawInitial = s.eulerAngles.yaw) := by
  unfold Hackflight.outerArmingCheck
  cases hc : env.changed <;> cases ha : env.arming <;>
    cases hf : s.failsafe <;> cases hs : s.safeToArm <;>
    by_cases hx : env.getAuxState = 0 <;> simp_all

/-- Claim C2: in the slow-task handler, from a disarmed state, `armed`
becomes true iff the receiver reports a changed input set, signals an arm
intent, failsafe is false, safeToArm is true, and the aux switch is at
position zero; on that transition `yawInitial` is set to the cached
orientation's yaw. -/
theorem outer_arming_iff (env : Env) (s : HState) (h : s.armed = false) :
    ((Hackflight.outer env s).1.armed = true ↔
      env.changed = true ∧ env.arming = true ∧ s.failsafe = false ∧
      s.safeToArm = true ∧ env.getAuxState = 0) ∧
    ((Hackflight.outer env s).1.armed = true →
      (Hackflight.outer env s).1.yawInitial = s.eulerAngles.yaw) := by
  have hmain := outerArmingCheck_armed_iff env s h
  constructor
  · rw [outer_fst_armed]; exact hmain.1
  · rw [outer_fst_armed, outer_fst_yawInitial]; exact hmain.2

/-- Witness for `outer_arming_iff`: with all guards satisfied, the concrete
tick arms and records `yawInitial = 7` from the cached orientation. -/
theorem outer_arming_iff_witness :
    ((Hackflight.outer envBase stateBase).1.armed = true ↔
      envBase.changed = true ∧ envBase.arming = true ∧
      stateBase.failsafe = false ∧ stateBase.safeToArm = true ∧
      envBase.getAuxState = 0) ∧
    ((Hackflight.outer envBase stateBase).1.armed = true →
      (Hackflight.outer envBase stateBase).1.yawInitial =
        stateBase.eulerAngles.yaw) :=
  outer_arming_iff envBase stateBase rfl

/-- Recognizer for `alti.handleAuxSwitch` calls in a trace. -/
def isAuxHookEvent : Event → Bool
  | .handleAuxSwitch _ _ => true
  | _ => false

/-- Claim C9: at the edge-detection point of the slow-task handler, when the
receiver's aux position differs from the stored `auxState`, `auxState` is
updated and the altitude controller's hook is invoked exactly once with the
new position and the current throttle demand; when it is equal, nothing
happens — and the hook calls of a whole slow-tick pass are exactly those of
the edge-detection block. -/
theorem outer_aux_edge_detection (env : Env) (s : HState) :
    (env.getAuxState ≠ s.auxState →
      (Hackflight.outerAuxEdge env s).1.auxState = env.getAuxState ∧
      (Hackflight.outerAuxEdge env s).2 =
        [Event.handleAuxSwitch env.getAuxState env.throttleDemand]) ∧
    (env.getAuxState = s.auxState →
      Hackflight.outerAuxEdge env s = (s, [])) ∧
    (Hackflight.outer env s).2.filter isAuxHookEvent =
      (Hackflight.outerAuxEdge env (Hackflight.outerArmingCheck env s)).2 := by
  refine ⟨?_, ?_, ?_⟩
  · intro hne
    unfold Hackflight.outerAuxEdge
    simp [hne]
  · intro heq
    unfold Hackflight.outerAuxEdge
    simp [heq]
  · unfold Hackflight.outer Hackflight.outerAuxEdge
    by_cases ht : env.throttleIsDown <;>
      by_cases he :
        env.getAuxState = (Hackflight.outerArmingCheck env s).auxState <;>
      simp [ht, he, isAuxHookEvent]

/-- Recognizer for mixer (actuator-dispatch) calls in a trace. -/
def isMixerEvent : Event → Bool
  | .cutMotors => true
  | .runDisarmed => true
  | .runArmed _ _ _ _ => true
  | _ => false

/-- Claim C7: every fast-tick pass issues exactly one actuator dispatch:
the disarmed pattern when not armed; the armed mixer with the throttle
demand and the three stabilization trims when armed, not in failsafe and
throttle not at minimum; a motor cut otherwise. -/
theorem inner_single_dispatch (env : Env) (s : HState) :
    (Hackflight.inner env s).2.filter isMixerEvent =
      [if s.armed = false then Event.runDisarmed
       else if s.failsafe = false ∧ env.throttleIsDown = false then
         Event.runArmed env.throttleDemandInner env.pidRoll env.pidPitch
           env.pidYaw
       else Event.cutMotors] := by
  unfold Hackflight.inner Hackflight.innerMixerDispatch
  cases ha : s.armed <;> cases hf : s.failsafe <;>
    cases ht : env.throttleIsDown <;> simp [isMixerEvent, ha, hf, ht]

/-- The fast-task handler only rewrites the cached orientation. -/
theorem inner_fst (e : Env) (s : HState) :
    (Hackflight.inner e s).1 =
      { s with
        eulerAngles :=
          { e.imuAngles with
            yaw := if e.imuAngles.yaw < 0 then e.imuAngles.yaw + 2 * M_PI
                   else e.imuAngles.yaw } } := rfl

/-- Fields of the orchestrator state that the arming-check block never
writes. -/
theorem outerArmingCheck_preserves (e : Env) (s : HState) :
    (Hackflight.outerArmingCheck e s).failsafe = s.failsafe ∧
    (Hackflight.outerArmingCheck e s).safeToArm = s.safeToArm ∧
    (Hackflight.outerArmingCheck e s).innerTask = s.innerTask ∧
    (Hackflight.outerArmingCheck e s).outerTask = s.outerTask ∧
    (Hackflight.outerArmingCheck e s).angleCheckTask = s.angleCheckTask ∧
    (Hackflight.outerArmingCheck e s).altitudeTask = s.altitudeTask := by
  unfold Hackflight.outerArmingCheck
  cases hc : e.changed <;> cases har : s.armed <;> cases hd : e.disarming <;>
    cases ha : e.arming <;> cases hf : s.failsafe <;> cases hs : s.safeToArm <;>
    by_cases hx : e.getAuxState = 0 <;> simp_all

/-- Fields of the orchestrator state that the aux-edge block never
writes. -/
theorem outerAuxEdge_preserves (e : Env) (s : HState) :
    (Hackflight.outerAuxEdge e s).1.failsafe = s.failsafe ∧
    (Hackflight.outerAuxEdge e s).1.safeToArm = s.safeToArm ∧
    (Hackflight.outerAuxEdge e s).1.innerTask = s.innerTask ∧
    (Hackflight.outerAuxEdge e s).1.outerTask = s.outerTask ∧
    (Hackflight.outerAuxEdge e s).1.angleCheckTask = s.angleCheckTask ∧
    (Hackflight.outerAuxEdge e s).1.altitudeTask = s.altitudeTask := by
  by_cases h : e.getAuxState ≠ s.auxState <;> simp [outerAuxEdge_fst, h]

/-- Fields of the orchestrator state that the slow-task handler never
writes. -/
theorem outer_fst_preserves (e : Env) (s : HState) :
    (Hackflight.outer e s).1.failsafe = s.failsafe ∧
    (Hackflight.outer e s).1.safeToArm = s.safeToArm ∧
    (Hackflight.outer e s).1.innerTask = s.innerTask ∧
    (Hackflight.outer e s).1.outerTask = s.outerTask ∧
    (Hackflight.outer e s).1.angleCheckTask = s.angleCheckTask ∧
    (Hackflight.outer e s).1.altitudeTask = s.altitudeTask := by
  have h1 := outerArmingCheck_preserves e s
  have h2 := outerAuxEdge_preserves e (Hackflight.outerArmingCheck e s)
  have hfst : (Hackflight.outer e s).1 =
      (Hackflight.outerAuxEdge e (Hackflight.outerArmingCheck e s)).1 := rfl
  rw [hfst]
  exact ⟨h2.1.trans h1.1, h2.2.1.trans h1.2.1, h2.2.2.1.trans h1.2.2.1,
    h2.2.2.2.1.trans h1.2.2.2.1, h2.2.2.2.2.1.trans h1.2.2.2.2.1,
    h2.2.2.2.2.2.trans h1.2.2.2.2.2⟩

/-- The final failsafe check, as a single conditional on the state. -/
theorem updateFailsafe_fst (e : Env) (s : HState) :
    (Hackflight.updateFailsafe e s).1 =
      if s.armed && e.lostSignal then
        { s with armed := false, failsafe := true }
      else s := by
  unfold Hackflight.updateFailsafe
  split <;> simp_all

/-- One dispatcher tick splits into the task-gated blocks followed by the
unconditional failsafe check, with the traces concatenated. -/
theorem update_eq (env : Env) (s : HState) :
    Hackflight.update env s =
      ((Hackflight.updateFailsafe env (Hackflight.updateTasks env s).1).1,
       (Hackflight.updateTasks env s).2 ++
         (Hackflight.updateFailsafe env (Hackflight.updateTasks env s).1).2) :=
  rfl

/-- Recognizer for `alti.computePid` calls in a trace. -/
def isPidEvent : Event → Bool
  | .computePid _ => true
  | _ => false

/-- Recognizer for `receiver->update()` calls in a trace. -/
def isRxUpdateEvent : Event → Bool
  | .receiverUpdate => true
  | _ => false

/-- The slow-task handler never changes `failsafe`. -/
theorem outer_failsafe (e : Env) (s : HState) :
    (Hackflight.outer e s).1.failsafe = s.failsafe :=
  (outer_fst_preserves e s).1

/-- The slow-task handler never touches the altitude task's timer. -/
theorem outer_altitudeTask (e : Env) (s : HState) :
    (Hackflight.outer e s).1.altitudeTask = s.altitudeTask :=
  (outer_fst_preserves e s).2.2.2.2.2

/-- The fast-task handler never changes `failsafe`. -/
theorem inner_failsafe (e : Env) (s : HState) :
    (Hackflight.inner e s).1.failsafe = s.failsafe := rfl

/-- The fast-task handler never touches the altitude task's timer. -/
theorem inner_altitudeTask (e : Env) (s : HState) :
    (Hackflight.inner e s).1.altitudeTask = s.altitudeTask := rfl

/-- The angle-safety check never changes `failsafe`. -/
theorem checkAngle_failsafe (e : Env) (s : HState) :
    (Hackflight.checkAngle e s).failsafe = s.failsafe := rfl

/-- The angle-safety check never touches the altitude task's timer. -/
theorem checkAngle_altitudeTask (e : Env) (s : HState) :
    (Hackflight.checkAngle e s).altitudeTask = s.altitudeTask := rfl

/-- The fast-task mixer dispatch is never an altitude-PID call. -/
theorem innerMixerDispatch_not_pid (e : Env) (s : HState) :
    isPidEvent (Hackflight.innerMixerDispatch e s) = false := by
  unfold Hackflight.innerMixerDispatch
  repeat' split
  all_goals rfl

/-- The fast-task mixer dispatch is never a receiver refresh. -/
theorem innerMixerDispatch_not_rx (e : Env) (s : HState) :
    isRxUpdateEvent (Hackflight.innerMixerDispatch e s) = false := by
  unfold Hackflight.innerMixerDispatch
  repeat' split
  all_goals rfl

/-- The slow-task handler makes no altitude-PID call. -/
theorem outer_events_no_pid (e : Env) (s : HState) :
    (Hackflight.outer e s).2.any isPidEvent = false := by
  unfold Hackflight.outer Hackflight.outerAuxEdge
  by_cases ht : e.throttleIsDown <;>
    by_cases he :
      e.getAuxState = (Hackflight.outerArmingCheck e s).auxState <;>
    simp [ht, he, isPidEvent]

/-- The slow-task handler always refreshes the receiver. -/
theorem outer_events_rx (e : Env) (s : HState) :
    (Hackflight.outer e s).2.any isRxUpdateEvent = true := by
  unfold Hackflight.outer
  simp [isRxUpdateEvent]

/-- The fast-task handler makes no altitude-PID call. -/
theorem inner_events_no_pid (e : Env) (s : HState) :
    (Hackflight.inner e s).2.any isPidEvent = false := by
  unfold Hackflight.inner
  simp only [List.any_cons, List.any_nil, innerMixerDispatch_not_pid]
  rfl

/-- The fast-task handler makes no receiver refresh. -/
theorem inner_events_no_rx (e : Env) (s : HState) :
    (Hackflight.inner e s).2.any isRxUpdateEvent = false := by
  unfold Hackflight.inner
  simp only [List.any_cons, List.any_nil, innerMixerDispatch_not_rx]
  rfl

/-- The final failsafe check makes no altitude-PID call. -/
theorem updateFailsafe_events_no_pid (e : Env) (s : HState) :
    (Hackflight.updateFailsafe e s).2.any isPidEvent = false := by
  unfold Hackflight.updateFailsafe
  split <;> simp [isPidEvent]

/-- The final failsafe check makes no receiver refresh. -/
theorem updateFailsafe_events_no_rx (e : Env) (s : HState) :
    (Hackflight.updateFailsafe e s).2.any isRxUpdateEvent = false := by
  unfold Hackflight.updateFailsafe
  split <;> simp [isRxUpdateEvent]

/-- The task-gated half of a tick never changes `failsafe`. -/
theorem updateTasks_failsafe (e : Env) (s : HState) :
    (Hackflight.updateTasks e s).1.failsafe = s.failsafe := by
  unfold Hackflight.updateTasks
  dsimp only
  repeat' split
  all_goals simp_all [outer_failsafe, inner_failsafe, checkAngle_failsafe]

/-- When the slow gate fires, the altitude task's timer is not consumed by
the tick's task half. -/
theorem updateTasks_altitudeTask (e : Env) (s : HState)
    (ho : (s.outerTask.checkAndUpdate e.time).1 = true) :
    (Hackflight.updateTasks e s).1.altitudeTask = s.altitudeTask := by
  unfold Hackflight.updateTasks
  dsimp only
  rw [ho]
  repeat' split
  all_goals
    simp_all [outer_altitudeTask, inner_altitudeTask, checkAngle_altitudeTask]

/-- The task half of a tick makes an altitude-PID call exactly when the slow
gate does not fire and the altitude gate does. -/
theorem updateTasks_events_pid (e : Env) (s : HState) :
    (Hackflight.updateTasks e s).2.any isPidEvent =
      (!s.outerTask.ready e.time && s.altitudeTask.ready e.time) := by
  unfold Hackflight.updateTasks
  dsimp only
  simp only [TimedTask.checkAndUpdate_eq]
  by_cases ho : s.outerTask.ready e.time <;>
    by_cases ha : s.altitudeTask.ready e.time <;>
    repeat' split
  all_goals
    simp_all [outer_events_no_pid, inner_events_no_pid, isPidEvent]

/-- The task half of a tick refreshes the receiver exactly when the slow
gate fires. -/
theorem updateTasks_events_rx (e : Env) (s : HState) :
    (Hackflight.updateTasks e s).2.any isRxUpdateEvent =
      s.outerTask.ready e.time := by
  unfold Hackflight.updateTasks
  dsimp only
  simp only [TimedTask.checkAndUpdate_eq]
  by_cases ho : s.outerTask.ready e.time <;> repeat' split
  all_goals
    simp_all [outer_events_rx, inner_events_no_rx, isRxUpdateEvent]

/-- The consuming check's fired flag equals the pure elapsed test. -/
theorem TimedTask.checkAndUpdate_fst (t : TimedTask) (now : Nat) :
    (t.checkAndUpdate now).1 = t.ready now := by
  rw [TimedTask.checkAndUpdate_eq]

/-- Claim C1: if `armed` is true when the failsafe check is reached and the
receiver reports signal loss, then before `update()` returns the mixer
receives a cut-motors command, `armed` is set false, `failsafe` is set true,
and the status LED is turned off — the cutoff commands coming after all task
handlers' calls in the tick's trace. -/
theorem update_signal_loss_reaction (env : Env) (s : HState)
    (hA : (Hackflight.updateTasks env s).1.armed = true)
    (hL : env.lostSignal = true) :
    (Hackflight.update env s).1.armed = false ∧
    (Hackflight.update env s).1.failsafe = true ∧
    (Hackflight.update env s).2 =
      (Hackflight.updateTasks env s).2 ++
        [Event.cutMotors, Event.ledSet false] := by
  rw [update_eq]
  unfold Hackflight.updateFailsafe
  simp [hA, hL]

/-- Witness for `update_signal_loss_reaction`: a concrete armed state losing
signal on a tick where no task gate fires. -/
theorem update_signal_loss_reaction_witness :
    (Hackflight.update { envBase with lostSignal := true }
        { stateBase with armed := true }).1.armed = false ∧
    (Hackflight.update { envBase with lostSignal := true }
        { stateBase with armed := true }).1.failsafe = true ∧
    (Hackflight.update { envBase with lostSignal := true }
        { stateBase with armed := true }).2 =
      (Hackflight.updateTasks { envBase with lostSignal := true }
          { stateBase with armed := true }).2 ++
        [Event.cutMotors, Event.ledSet false] :=
  update_signal_loss_reaction { envBase with lostSignal := true }
    { stateBase with armed := true } (by decide) rfl

/-- One tick never turns `failsafe` off. -/
theorem update_failsafe_mono (e : Env) (s : HState) (h : s.failsafe = true) :
    (Hackflight.update e s).1.failsafe = true := by
  rw [update_eq, updateFailsafe_fst]
  have h5 := updateTasks_failsafe e s
  split <;> simp_all

/-- Claim C3: once `failsafe` is true it stays true across every subsequent
tick, whatever the receiver reports (including signal recovery); only
external re-initialization (`init`) clears it. -/
theorem failsafe_sticky (envs : List Env) (s : HState)
    (h : s.failsafe = true) :
    (Hackflight.run envs s).failsafe = true ∧
    (Hackflight.init s).failsafe = false := by
  have main : ∀ (l : List Env) (st : HState), st.failsafe = true →
      (Hackflight.run l st).failsafe = true := by
    intro l
    induction l with
    | nil => intro st hst; exact hst
    | cons e rest ih =>
        intro st hst
        exact ih (Hackflight.update e st).1 (update_failsafe_mono e st hst)
  exact ⟨main envs s h, rfl⟩

/-- Witness for `failsafe_sticky`: a failsafed state stays failsafed over a
two-tick run whose receiver signal has recovered. -/
theorem failsafe_sticky_witness :
    (Hackflight.run [envBase, { envBase with time := 20000 }]
        { stateBase with failsafe := true }).failsafe = true ∧
    (Hackflight.init { stateBase with failsafe := true }).failsafe = false :=
  failsafe_sticky [envBase, { envBase with time := 20000 }]
    { stateBase with failsafe := true } rfl

/-- Claim C4: within one `update()` call, the slow-task (pilot-command)
handler and the altitude-PID handler never both run; when the slow gate
fires, no altitude-PID step runs and the altitude task's timer is not
consumed; when the slow gate does not fire, the altitude-PID step runs iff
the altitude gate's period has elapsed. -/
theorem update_slow_alt_exclusive (env : Env) (s : HState) :
    ¬((Hackflight.update env s).2.any isRxUpdateEvent = true ∧
      (Hackflight.update env s).2.any isPidEvent = true) ∧
    (s.outerTask.ready env.time = true →
      (Hackflight.update env s).2.any isPidEvent = false ∧
      (Hackflight.update env s).1.altitudeTask = s.altitudeTask) ∧
    (s.outerTask.ready env.time = false →
      ((Hackflight.update env s).2.any isPidEvent = true ↔
        s.altitudeTask.ready env.time = true)) := by
  have hpid : (Hackflight.update env s).2.any isPidEvent =
      (!s.outerTask.ready env.time && s.altitudeTask.ready env.time) := by
    rw [update_eq]
    simp [List.any_append, updateTasks_events_pid, updateFailsafe_events_no_pid]
  have hrx : (Hackflight.update env s).2.any isRxUpdateEvent =
      s.outerTask.ready env.time := by
    rw [update_eq]
    simp [List.any_append, updateTasks_events_rx, updateFailsafe_events_no_rx]
  refine ⟨?_, ?_, ?_⟩
  · rintro ⟨h1, h2⟩
    rw [hrx] at h1
    rw [hpid] at h2
    simp [h1] at h2
  · intro ho
    refine ⟨by rw [hpid, ho]; simp, ?_⟩
    rw [update_eq, updateFailsafe_fst]
    have halt := updateTasks_altitudeTask env s
      (by rw [TimedTask.checkAndUpdate_fst]; exact ho)
    split <;> simp [halt]
  · intro ho
    rw [hpid, ho]
    simp

end HF
